import Mathlib

/-!
Shallow embedding of the `samplemodel_2` backend
(`src/backend/main_api.py`, `src/backend/pydantic_classes.py`,
`src/backend/sql_alchemy.py`).

The relational store is modelled as lists of rows.  The entity tables
`book`, `author`, `library` and the two many-to-many join tables
`books_1` (columns `(authors, books)`, i.e. Author↔Book) and `books`
(columns `(books, library)`, i.e. Book↔Library) come from
`sql_alchemy.py`.  Autoincrement primary keys are modelled by `next…Id`
counters in the state.  Each endpoint is a function from the committed
database state (plus its inputs) to `Except (ApiError × DB) (result × DB)`:
on an error the returned `DB` is the state left committed after the
request (the `get_db` dependency in `main_api.py` rolls back anything
uncommitted when an exception escapes the endpoint), on success it is the
state after the final commit.
-/

namespace SampleModel

/-- A row of the `book` table (`sql_alchemy.py`, class `Book`).
`price` (a float), `release` (a date) and `time` (a time of day) are only
ever stored and copied verbatim by the API, never computed with, so they
are carried as uninterpreted `Nat` codes. -/
structure BookRow where
  id : Nat
  title : String
  pages : Int
  stock : Int
  price : Nat
  release : Nat
  time : Nat
deriving Repr, DecidableEq

/-- A row of the `author` table (`sql_alchemy.py`, class `Author`). -/
structure AuthorRow where
  id : Nat
  name : String
deriving Repr, DecidableEq

/-- A row of the `library` table (`sql_alchemy.py`, class `Library`). -/
structure LibraryRow where
  id : Nat
  name : String
deriving Repr, DecidableEq

/-- The committed database state.  `books_1` rows are
`(authors, books)` = (author id, book id) pairs, `books` rows are
`(books, library)` = (book id, library id) pairs, matching the column
order of the `Table` definitions in `sql_alchemy.py` lines 18–29. -/
structure DB where
  book : List BookRow
  author : List AuthorRow
  library : List LibraryRow
  books_1 : List (Nat × Nat)
  books : List (Nat × Nat)
  nextBookId : Nat
  nextAuthorId : Nat
  nextLibraryId : Nat
deriving Repr, DecidableEq

/-- `BookCreate` from `pydantic_classes.py`: the request payload for book
create/update, including the two relation id lists. -/
structure BookCreate where
  pages : Int
  time : Nat
  stock : Int
  price : Nat
  release : Nat
  title : String
  authors : List Nat
  library : List Nat
deriving Repr, DecidableEq

/-- `AuthorCreate` from `pydantic_classes.py`. -/
structure AuthorCreate where
  name : String
  books : List Nat
deriving Repr, DecidableEq

/-- `LibraryCreate` from `pydantic_classes.py`. -/
structure LibraryCreate where
  name : String
  books : List Nat
deriving Repr, DecidableEq

/-- Errors surfaced by a request, per the exception handlers in
`main_api.py` lines 98–154: `httpExc` is a `fastapi.HTTPException` with
its status code and string detail, `bulkExc` is an `HTTPException` whose
detail is the `{"message": …, "errors": [{"index": …, "error": …}]}`
dictionary raised by the bulk-create endpoints, and `integrityErr` is a
`sqlalchemy.exc.IntegrityError` escaping to the `IntegrityError`
handler. -/
inductive ApiError where
  | httpExc (statusCode : Nat) (detail : String)
  | bulkExc (statusCode : Nat) (message : String) (errors : List (Nat × String))
  | integrityErr (detail : String)
deriving Repr, DecidableEq

/-- The HTTP status of the JSON error response produced for an
`ApiError`: `HTTPException`s keep their status code
(`http_exception_handler`), an `IntegrityError` becomes 409
(`integrity_error_handler`); a bare `ValueError` would become 400
(`value_error_handler`). -/
def ApiError.responseStatus : ApiError → Nat
  | .httpExc s _ => s
  | .bulkExc s _ _ => s
  | .integrityErr _ => 409

/-- `validate_pages_1` from `pydantic_classes.py` (OCL constraint
`constraint_Book_0_1`): `if not (v > 10): raise ValueError('pages must be > 10')`. -/
def validate_pages_1 (v : Int) : Except String Int :=
  if !(v > 10 : Bool) then Except.error "pages must be > 10" else Except.ok v

/-- Pydantic validation of a whole `BookCreate` payload: the only field
validator is `validate_pages_1` on `pages`. -/
def validateBookCreate (b : BookCreate) : Except String BookCreate :=
  match validate_pages_1 b.pages with
  | Except.error m => Except.error m
  | Except.ok _ => Except.ok b

/-- `database.query(Book).filter(Book.id == id).first()`. -/
def findBook (db : DB) (id : Nat) : Option BookRow :=
  db.book.find? (fun r => r.id == id)

/-- `database.query(Author).filter(Author.id == id).first()`. -/
def findAuthor (db : DB) (id : Nat) : Option AuthorRow :=
  db.author.find? (fun r => r.id == id)

/-- `database.query(Library).filter(Library.id == id).first()`. -/
def findLibrary (db : DB) (id : Nat) : Option LibraryRow :=
  db.library.find? (fun r => r.id == id)

/-- `database.query(books_1.c.authors).filter(books_1.c.books == bid).all()`:
the author ids linked to a book. -/
def authorIdsOfBook (db : DB) (bid : Nat) : List Nat :=
  (db.books_1.filter (fun p => p.2 == bid)).map (fun p => p.1)

/-- `database.query(books.c.library).filter(books.c.books == bid).all()`:
the library ids linked to a book. -/
def libraryIdsOfBook (db : DB) (bid : Nat) : List Nat :=
  (db.books.filter (fun p => p.1 == bid)).map (fun p => p.2)

/-- `database.query(books_1.c.books).filter(books_1.c.authors == aid).all()`:
the book ids linked to an author. -/
def bookIdsOfAuthor (db : DB) (aid : Nat) : List Nat :=
  (db.books_1.filter (fun p => p.1 == aid)).map (fun p => p.2)

/-- `database.query(books.c.books).filter(books.c.library == lid).all()`:
the book ids linked to a library. -/
def bookIdsOfLibrary (db : DB) (lid : Nat) : List Nat :=
  (db.books.filter (fun p => p.2 == lid)).map (fun p => p.1)

/-- Execution of `join_table.insert().values(...)` against the store: the
composite primary key on the pair of foreign keys makes the database
reject a duplicate pair with a uniqueness `IntegrityError`; otherwise the
row is appended. -/
def insertPair (tbl : List (Nat × Nat)) (p : Nat × Nat) : Except String (List (Nat × Nat)) :=
  if p ∈ tbl then Except.error "UNIQUE constraint failed" else Except.ok (tbl ++ [p])

/-- The removal loop of the update endpoints: for each id in
`…_to_remove`, execute `join_table.delete().where(owner == … & other == id)`
(which deletes every row equal to the pair `mk id`). -/
def foldDeleteLinks (mk : Nat → Nat × Nat) : List Nat → List (Nat × Nat) → List (Nat × Nat)
  | [], tbl => tbl
  | a :: rest, tbl => foldDeleteLinks mk rest (tbl.filter (fun p => !(p == mk a)))

/-- The insertion loop of the update endpoints: for each id in
`new_…_ids`, first query the referenced entity (`exq`) and raise 404
(`nf`) if it does not exist, then execute the join-table insert. -/
def foldInsertLinks (exq : Nat → Bool) (nf : Nat → ApiError) (mk : Nat → Nat × Nat) :
    List Nat → List (Nat × Nat) → Except ApiError (List (Nat × Nat))
  | [], tbl => Except.ok tbl
  | a :: rest, tbl =>
    if exq a then
      match insertPair tbl (mk a) with
      | Except.error e => Except.error (ApiError.integrityErr e)
      | Except.ok t => foldInsertLinks exq nf mk rest t
    else Except.error (nf a)

/-- Python's `set(xs) - set(ys)` iterated over: the distinct elements of
`xs` that are not in `ys` (set-iteration order modelled as the order
`List.dedup` produces; the final table contents do not depend on it). -/
def setDiff (xs ys : List Nat) : List Nat :=
  xs.dedup.filter (fun a => decide (a ∉ ys))

/-- The association-synchronization core shared (textually repeated) by
`update_book`, `update_author` and `update_library` in `main_api.py`:
compute `to_remove = set(existing) - set(target)` and delete those rows,
then `to_add = set(target) - set(existing)` and insert those rows after
checking each referenced entity exists. -/
def reconcileLinks (exq : Nat → Bool) (nf : Nat → ApiError) (mk : Nat → Nat × Nat)
    (existing target : List Nat) (tbl : List (Nat × Nat)) :
    Except ApiError (List (Nat × Nat)) :=
  foldInsertLinks exq nf mk (setDiff target existing)
    (foldDeleteLinks mk (setDiff existing target) tbl)

/-- The link-creation loop of the single-create endpoints
(`create_book`, `create_author`, `create_library`): each association
insert is followed by its own `database.commit()`, so when an insert
raises `IntegrityError` the rows inserted by earlier iterations stay
committed.  Returns the committed table together with the error, if
any. -/
def insertPairsCommitting (mk : Nat → Nat × Nat) :
    List Nat → List (Nat × Nat) → List (Nat × Nat) × Option String
  | [], tbl => (tbl, none)
  | a :: rest, tbl =>
    match insertPair tbl (mk a) with
    | Except.error e => (tbl, some e)
    | Except.ok t => insertPairsCommitting mk rest t

def authorNotFoundMsg (a : Nat) : String := s!"Author with ID {a} not found"

def libraryNotFoundMsg (l : Nat) : String := s!"Library with ID {l} not found"

def bookNotFoundMsg (b : Nat) : String := s!"Book with ID {b} not found"

/-- `create_book` (`main_api.py` lines 325–374): validate every
referenced author and library id (404 before any write), commit the book
row, then insert the association rows one by one, committing after each
insert.  Returns the new row and the linked id lists of the response. -/
def create_book (db : DB) (bd : BookCreate) :
    Except (ApiError × DB) (BookRow × List Nat × List Nat × DB) :=
  match bd.authors.find? (fun a => !(findAuthor db a).isSome) with
  | some a => Except.error (ApiError.httpExc 404 (authorNotFoundMsg a), db)
  | none =>
  match bd.library.find? (fun l => !(findLibrary db l).isSome) with
  | some l => Except.error (ApiError.httpExc 404 (libraryNotFoundMsg l), db)
  | none =>
    let nr : BookRow :=
      ⟨db.nextBookId, bd.title, bd.pages, bd.stock, bd.price, bd.release, bd.time⟩
    let db1 : DB := { db with book := db.book ++ [nr], nextBookId := db.nextBookId + 1 }
    match insertPairsCommitting (fun a => (a, nr.id)) bd.authors db1.books_1 with
    | (tblA, some e) => Except.error (ApiError.integrityErr e, { db1 with books_1 := tblA })
    | (tblA, none) =>
      let db2 : DB := { db1 with books_1 := tblA }
      match insertPairsCommitting (fun l => (nr.id, l)) bd.library db2.books with
      | (tblL, some e) => Except.error (ApiError.integrityErr e, { db2 with books := tblL })
      | (tblL, none) =>
        let db3 : DB := { db2 with books := tblL }
        Except.ok (nr, authorIdsOfBook db3 nr.id, libraryIdsOfBook db3 nr.id, db3)

/-- `create_author` (`main_api.py` lines 818–853): reject an empty books
list with 400, validate every referenced book id (404 before any write),
commit the author row, then insert the association rows one by one. -/
def create_author (db : DB) (ad : AuthorCreate) :
    Except (ApiError × DB) (AuthorRow × List Nat × DB) :=
  if ad.books.isEmpty then
    Except.error (ApiError.httpExc 400 "At least 1 Book(s) required", db)
  else
    match ad.books.find? (fun b => !(findBook db b).isSome) with
    | some b => Except.error (ApiError.httpExc 404 (bookNotFoundMsg b), db)
    | none =>
      let nr : AuthorRow := ⟨db.nextAuthorId, ad.name⟩
      let db1 : DB := { db with author := db.author ++ [nr], nextAuthorId := db.nextAuthorId + 1 }
      match insertPairsCommitting (fun b => (nr.id, b)) ad.books db1.books_1 with
      | (tbl, some e) => Except.error (ApiError.integrityErr e, { db1 with books_1 := tbl })
      | (tbl, none) =>
        let db2 : DB := { db1 with books_1 := tbl }
        Except.ok (nr, bookIdsOfAuthor db2 nr.id, db2)

/-- Per-item validation of a bulk book request, with the enumeration
index of `for idx, item_data in enumerate(items)`: each raw item is run
through the `BookCreate` validator (`validate_pages_1`), and the failures
are collected as `{"index": idx, "error": str(e)}` entries. -/
def validateItemsFrom : Nat → List BookCreate → List (Nat × String)
  | _, [] => []
  | i, it :: rest =>
    match validate_pages_1 it.pages with
    | Except.error m => (i, m) :: validateItemsFrom (i + 1) rest
    | Except.ok _ => validateItemsFrom (i + 1) rest

def validateItems (items : List BookCreate) : List (Nat × String) :=
  validateItemsFrom 0 items

/-- The rows staged by `bulk_create_book`'s loop (`database.add` +
`database.flush()` assigning consecutive ids), built only from the scalar
fields of each item — the `authors`/`library` id lists are never read. -/
def stageBooksFrom : Nat → List BookCreate → List BookRow
  | _, [] => []
  | n, it :: rest =>
    ⟨n, it.title, it.pages, it.stock, it.price, it.release, it.time⟩ :: stageBooksFrom (n + 1) rest

/-- `bulk_create_book` (`main_api.py` lines 377–404) together with the
per-item `BookCreate` validation of its request body: if any item fails
validation, the whole batch is rejected with the per-index error list and
nothing is persisted (`database.rollback()`); otherwise all rows are
staged and committed in one transaction.  Returns the created ids. -/
def bulk_create_book (db : DB) (items : List BookCreate) :
    Except (ApiError × DB) (List Nat × DB) :=
  let errs := validateItems items
  if errs.isEmpty then
    let rows := stageBooksFrom db.nextBookId items
    Except.ok (rows.map (fun r => r.id),
      { db with book := db.book ++ rows, nextBookId := db.nextBookId + items.length })
  else
    Except.error (ApiError.bulkExc 400 "Bulk creation failed" errs, db)

/-- The author rows staged by `bulk_create_author`'s loop: only
`item_data.name` is read — the `books` id list is ignored and no
"at least 1 Book" check is performed. -/
def stageAuthorsFrom : Nat → List AuthorCreate → List AuthorRow
  | _, [] => []
  | n, it :: rest => ⟨n, it.name⟩ :: stageAuthorsFrom (n + 1) rest

/-- `bulk_create_author` (`main_api.py` lines 856–883): `AuthorCreate`
has no field validators and the loop body only constructs
`Author(name=item_data.name)`, so every request succeeds, no join rows
are written and no per-item error can occur. -/
def bulk_create_author (db : DB) (items : List AuthorCreate) : List Nat × DB :=
  let rows := stageAuthorsFrom db.nextAuthorId items
  (rows.map (fun r => r.id),
    { db with author := db.author ++ rows, nextAuthorId := db.nextAuthorId + items.length })

/-- The library rows staged by `bulk_create_library`'s loop. -/
def stageLibrariesFrom : Nat → List LibraryCreate → List LibraryRow
  | _, [] => []
  | n, it :: rest => ⟨n, it.name⟩ :: stageLibrariesFrom (n + 1) rest

/-- `bulk_create_library` (`main_api.py` lines 1168–1195): like
`bulk_create_author`, only `item_data.name` is read. -/
def bulk_create_library (db : DB) (items : List LibraryCreate) : List Nat × DB :=
  let rows := stageLibrariesFrom db.nextLibraryId items
  (rows.map (fun r => r.id),
    { db with library := db.library ++ rows, nextLibraryId := db.nextLibraryId + items.length })

/-- `update_book` (`main_api.py` lines 429–483): 404 if the book is
absent; overwrite all scalar fields; reconcile the `authors` association
then the `library` association; a single `database.commit()` at the end,
so an HTTPException while reconciling rolls every pending change back
(the error case returns the unchanged committed state). -/
def update_book (db : DB) (bid : Nat) (bd : BookCreate) :
    Except (ApiError × DB) (BookRow × List Nat × List Nat × DB) :=
  match findBook db bid with
  | none => Except.error (ApiError.httpExc 404 "Book not found", db)
  | some _ =>
    match reconcileLinks (fun a => (findAuthor db a).isSome)
        (fun a => ApiError.httpExc 404 (authorNotFoundMsg a)) (fun a => (a, bid))
        (authorIdsOfBook db bid) bd.authors db.books_1 with
    | Except.error e => Except.error (e, db)
    | Except.ok tblA =>
      match reconcileLinks (fun l => (findLibrary db l).isSome)
          (fun l => ApiError.httpExc 404 (libraryNotFoundMsg l)) (fun l => (bid, l))
          (libraryIdsOfBook db bid) bd.library db.books with
      | Except.error e => Except.error (e, db)
      | Except.ok tblL =>
        let nr : BookRow :=
          ⟨bid, bd.title, bd.pages, bd.stock, bd.price, bd.release, bd.time⟩
        let db' : DB := { db with
          book := db.book.map (fun r => if r.id == bid then nr else r),
          books_1 := tblA, books := tblL }
        Except.ok (nr, authorIdsOfBook db' bid, libraryIdsOfBook db' bid, db')

/-- `update_author` (`main_api.py` lines 908–939): 404 if absent,
overwrite `name`, reconcile the `books` association (no
"at least 1 Book" check here), commit. -/
def update_author (db : DB) (aid : Nat) (ad : AuthorCreate) :
    Except (ApiError × DB) (AuthorRow × List Nat × DB) :=
  match findAuthor db aid with
  | none => Except.error (ApiError.httpExc 404 "Author not found", db)
  | some _ =>
    match reconcileLinks (fun b => (findBook db b).isSome)
        (fun b => ApiError.httpExc 404 (bookNotFoundMsg b)) (fun b => (aid, b))
        (bookIdsOfAuthor db aid) ad.books db.books_1 with
    | Except.error e => Except.error (e, db)
    | Except.ok tbl =>
      let nr : AuthorRow := ⟨aid, ad.name⟩
      let db' : DB := { db with
        author := db.author.map (fun r => if r.id == aid then nr else r),
        books_1 := tbl }
      Except.ok (nr, bookIdsOfAuthor db' aid, db')

/-- `update_library` (`main_api.py` lines 1220–1251). -/
def update_library (db : DB) (lid : Nat) (ld : LibraryCreate) :
    Except (ApiError × DB) (LibraryRow × List Nat × DB) :=
  match findLibrary db lid with
  | none => Except.error (ApiError.httpExc 404 "Library not found", db)
  | some _ =>
    match reconcileLinks (fun b => (findBook db b).isSome)
        (fun b => ApiError.httpExc 404 (bookNotFoundMsg b)) (fun b => (b, lid))
        (bookIdsOfLibrary db lid) ld.books db.books with
    | Except.error e => Except.error (e, db)
    | Except.ok tbl =>
      let nr : LibraryRow := ⟨lid, ld.name⟩
      let db' : DB := { db with
        library := db.library.map (fun r => if r.id == lid then nr else r),
        books := tbl }
      Except.ok (nr, bookIdsOfLibrary db' lid, db')

/-- `delete_book` (`main_api.py` lines 486–493): `database.delete(db_book)`
followed by `commit`.  The SQLAlchemy unit of work deletes the rows of a
`relationship(secondary=…)` join table that reference a deleted parent
object, so deleting the `Book` also removes its `books_1` and `books`
association rows (the endpoint itself contains no explicit join-table
statement). -/
def delete_book (db : DB) (bid : Nat) : Except (ApiError × DB) (BookRow × DB) :=
  match findBook db bid with
  | none => Except.error (ApiError.httpExc 404 "Book not found", db)
  | some r =>
    Except.ok (r, { db with
      book := db.book.filter (fun x => !(x.id == bid)),
      books_1 := db.books_1.filter (fun p => !(p.2 == bid)),
      books := db.books.filter (fun p => !(p.1 == bid)) })

/-- `delete_author` (`main_api.py` lines 942–949): the ORM also removes
the deleted author's `books_1` rows (see `delete_book`). -/
def delete_author (db : DB) (aid : Nat) : Except (ApiError × DB) (AuthorRow × DB) :=
  match findAuthor db aid with
  | none => Except.error (ApiError.httpExc 404 "Author not found", db)
  | some r =>
    Except.ok (r, { db with
      author := db.author.filter (fun x => !(x.id == aid)),
      books_1 := db.books_1.filter (fun p => !(p.1 == aid)) })

/-- `delete_library` (`main_api.py` lines 1254–1261): the ORM also
removes the deleted library's `books` rows (see `delete_book`). -/
def delete_library (db : DB) (lid : Nat) : Except (ApiError × DB) (LibraryRow × DB) :=
  match findLibrary db lid with
  | none => Except.error (ApiError.httpExc 404 "Library not found", db)
  | some r =>
    Except.ok (r, { db with
      library := db.library.filter (fun x => !(x.id == lid)),
      books := db.books.filter (fun p => !(p.2 == lid)) })

/-- `add_authors_to_book` (`main_api.py` lines 495–520): 404 if book or
author is missing, then `raise HTTPException(status_code=400,
detail="Relationship already exists")` when the pair is already present,
else insert and commit. -/
def add_authors_to_book (db : DB) (bid aid : Nat) :
    Except (ApiError × DB) (String × DB) :=
  match findBook db bid with
  | none => Except.error (ApiError.httpExc 404 "Book not found", db)
  | some _ =>
  match findAuthor db aid with
  | none => Except.error (ApiError.httpExc 404 "Author not found", db)
  | some _ =>
    if (aid, bid) ∈ db.books_1 then
      Except.error (ApiError.httpExc 400 "Relationship already exists", db)
    else
      match insertPair db.books_1 (aid, bid) with
      | Except.error e => Except.error (ApiError.integrityErr e, db)
      | Except.ok t =>
        Except.ok ("Author added to authors successfully", { db with books_1 := t })

/-- `execute_book_decrease_stock` (`main_api.py` lines 644–708): 404 if
the book is missing; the method body raises `ValueError` when
`qty <= 0` or `qty > stock`, which the endpoint's `except Exception`
clause converts into `HTTPException(status_code=500,
detail=f"Method execution failed: ...")`; otherwise `stock -= qty` is
committed.  The response's `result` is always `None` and the captured
stdout is empty, so only the state matters here. -/
def execute_book_decrease_stock (db : DB) (bid : Nat) (qty : Int) :
    Except (ApiError × DB) DB :=
  match findBook db bid with
  | none => Except.error (ApiError.httpExc 404 "Book not found", db)
  | some b =>
    if qty ≤ 0 then
      Except.error
        (ApiError.httpExc 500 "Method execution failed: Quantity must be a positive integer", db)
    else if qty > b.stock then
      let st := b.stock
      Except.error
        (ApiError.httpExc 500
          s!"Method execution failed: Cannot decrease stock by {qty}. Only {st} items available.",
         db)
    else
      let nr : BookRow := { b with stock := b.stock - qty }
      Except.ok { db with book := db.book.map (fun r => if r.id == bid then nr else r) }

/-! ### Generic lemmas about the join-table primitives -/

theorem mem_idsRight {tbl : List (Nat × Nat)} {o a : Nat} :
    a ∈ (tbl.filter (fun p => p.2 == o)).map (fun p => p.1) ↔ (a, o) ∈ tbl := by
  simp only [List.mem_map, List.mem_filter, beq_iff_eq]
  constructor
  · rintro ⟨⟨x, y⟩, ⟨hmem, hy⟩, hx⟩
    simp only at hx hy
    subst hx; subst hy
    exact hmem
  · intro h
    exact ⟨(a, o), ⟨h, rfl⟩, rfl⟩

theorem mem_idsLeft {tbl : List (Nat × Nat)} {o a : Nat} :
    a ∈ (tbl.filter (fun p => p.1 == o)).map (fun p => p.2) ↔ (o, a) ∈ tbl := by
  simp only [List.mem_map, List.mem_filter, beq_iff_eq]
  constructor
  · rintro ⟨⟨x, y⟩, ⟨hmem, hx⟩, hy⟩
    simp only at hx hy
    subst hx; subst hy
    exact hmem
  · intro h
    exact ⟨(o, a), ⟨h, rfl⟩, rfl⟩

theorem mem_authorIdsOfBook {db : DB} {bid a : Nat} :
    a ∈ authorIdsOfBook db bid ↔ (a, bid) ∈ db.books_1 := mem_idsRight

theorem mem_libraryIdsOfBook {db : DB} {bid l : Nat} :
    l ∈ libraryIdsOfBook db bid ↔ (bid, l) ∈ db.books := mem_idsLeft

theorem mem_bookIdsOfAuthor {db : DB} {aid b : Nat} :
    b ∈ bookIdsOfAuthor db aid ↔ (aid, b) ∈ db.books_1 := mem_idsLeft

theorem mem_bookIdsOfLibrary {db : DB} {lid b : Nat} :
    b ∈ bookIdsOfLibrary db lid ↔ (b, lid) ∈ db.books := mem_idsRight

theorem mem_setDiff {xs ys : List Nat} {a : Nat} :
    a ∈ setDiff xs ys ↔ a ∈ xs ∧ a ∉ ys := by
  simp [setDiff, List.mem_filter, List.mem_dedup]

theorem nodup_setDiff (xs ys : List Nat) : (setDiff xs ys).Nodup :=
  (List.nodup_dedup xs).filter _

theorem setDiff_eq_nil {xs ys : List Nat} (h : ∀ a ∈ xs, a ∈ ys) :
    setDiff xs ys = [] := by
  apply List.filter_eq_nil_iff.mpr
  intro a ha
  simp [h a (List.mem_dedup.mp ha)]

theorem foldDeleteLinks_eq (mk : Nat → Nat × Nat) (ids : List Nat) (tbl : List (Nat × Nat)) :
    foldDeleteLinks mk ids tbl = tbl.filter (fun p => !(ids.any (fun a => p == mk a))) := by
  induction ids generalizing tbl with
  | nil => simp [foldDeleteLinks]
  | cons a rest ih =>
    rw [foldDeleteLinks, ih, List.filter_filter]
    congr 1
    funext p
    simp [List.any_cons, Bool.and_comm]

theorem mem_foldDeleteLinks {mk : Nat → Nat × Nat} {ids : List Nat}
    {tbl : List (Nat × Nat)} {p : Nat × Nat} :
    p ∈ foldDeleteLinks mk ids tbl ↔ p ∈ tbl ∧ ∀ a ∈ ids, p ≠ mk a := by
  rw [foldDeleteLinks_eq]
  simp [List.mem_filter, List.any_eq_true]

theorem foldInsertLinks_ok (exq : Nat → Bool) (nf : Nat → ApiError) {mk : Nat → Nat × Nat}
    (hinj : ∀ a b : Nat, mk a = mk b → a = b) (ids : List Nat) :
    ∀ tbl : List (Nat × Nat), ids.Nodup →
      (∀ a ∈ ids, exq a = true) → (∀ a ∈ ids, mk a ∉ tbl) →
      foldInsertLinks exq nf mk ids tbl = Except.ok (tbl ++ ids.map mk) := by
  induction ids with
  | nil => intro tbl _ _ _; simp [foldInsertLinks]
  | cons a rest ih =>
    intro tbl hnd hq hm
    rw [foldInsertLinks, if_pos (hq a (List.mem_cons_self a rest)), insertPair,
      if_neg (hm a (List.mem_cons_self a rest))]
    have hrec := ih (tbl ++ [mk a]) (List.Nodup.of_cons hnd)
      (fun b hb => hq b (List.mem_cons_of_mem a hb)) ?_
    · show foldInsertLinks exq nf mk rest (tbl ++ [mk a]) = _
      rw [hrec]
      simp
    · intro b hb hmem
      rcases List.mem_append.mp hmem with h | h
      · exact hm b (List.mem_cons_of_mem a hb) h
      · have hba : b = a := hinj b a (by simpa using h)
        subst hba
        exact (List.nodup_cons.mp hnd).1 hb

theorem reconcileLinks_spec (exq : Nat → Bool) (nf : Nat → ApiError) {mk : Nat → Nat × Nat}
    {existing target : List Nat} {tbl : List (Nat × Nat)}
    (hinj : ∀ a b : Nat, mk a = mk b → a = b)
    (hex : ∀ a, a ∈ existing ↔ mk a ∈ tbl)
    (hexq : ∀ a ∈ target, exq a = true) :
    ∃ out, reconcileLinks exq nf mk existing target tbl = Except.ok out ∧
      (∀ a, mk a ∈ out ↔ a ∈ target) ∧
      (∀ p : Nat × Nat, (∀ a, p ≠ mk a) → (p ∈ out ↔ p ∈ tbl)) := by
  have hmemdel : ∀ p : Nat × Nat,
      p ∈ foldDeleteLinks mk (setDiff existing target) tbl ↔
        p ∈ tbl ∧ ∀ a ∈ setDiff existing target, p ≠ mk a :=
    fun p => mem_foldDeleteLinks
  have hins := foldInsertLinks_ok exq nf hinj (setDiff target existing)
    (foldDeleteLinks mk (setDiff existing target) tbl)
    (nodup_setDiff _ _)
    (fun a ha => hexq a (mem_setDiff.mp ha).1)
    (fun a ha hmem => by
      have hne : a ∉ existing := (mem_setDiff.mp ha).2
      have : mk a ∈ tbl := ((hmemdel (mk a)).mp hmem).1
      exact hne ((hex a).mpr this))
  refine ⟨_, hins, ?_, ?_⟩
  · intro a
    constructor
    · intro hmem
      rcases List.mem_append.mp hmem with h | h
      · have h1 : mk a ∈ tbl := ((hmemdel (mk a)).mp h).1
        have h2 : ∀ b ∈ setDiff existing target, mk a ≠ mk b := ((hmemdel (mk a)).mp h).2
        by_contra htgt
        exact h2 a (mem_setDiff.mpr ⟨(hex a).mpr h1, htgt⟩) rfl
      · rcases List.mem_map.mp h with ⟨b, hb, hba⟩
        have : b = a := hinj b a hba
        subst this
        exact (mem_setDiff.mp hb).1
    · intro htgt
      by_cases hexist : a ∈ existing
      · refine List.mem_append.mpr (Or.inl ((hmemdel (mk a)).mpr ⟨(hex a).mp hexist, ?_⟩))
        intro b hb heq
        have : a = b := hinj a b heq
        subst this
        exact (mem_setDiff.mp hb).2 htgt
      · exact List.mem_append.mpr (Or.inr (List.mem_map.mpr
          ⟨a, mem_setDiff.mpr ⟨htgt, hexist⟩, rfl⟩))
  · intro p hp
    constructor
    · intro hmem
      rcases List.mem_append.mp hmem with h | h
      · exact ((hmemdel p).mp h).1
      · rcases List.mem_map.mp h with ⟨b, _, hba⟩
        exact absurd hba.symm (hp b)
    · intro hmem
      exact List.mem_append.mpr (Or.inl ((hmemdel p).mpr
        ⟨hmem, fun a _ => hp a⟩))

theorem reconcileLinks_self {exq : Nat → Bool} {nf : Nat → ApiError} {mk : Nat → Nat × Nat}
    {existing target : List Nat} {out : List (Nat × Nat)}
    (hex : ∀ a, a ∈ existing ↔ mk a ∈ out)
    (hR1 : ∀ a, mk a ∈ out ↔ a ∈ target) :
    reconcileLinks exq nf mk existing target out = Except.ok out := by
  have h1 : setDiff existing target = [] :=
    setDiff_eq_nil (fun a ha => (hR1 a).mp ((hex a).mp ha))
  have h2 : setDiff target existing = [] :=
    setDiff_eq_nil (fun a ha => (hex a).mpr ((hR1 a).mpr ha))
  rw [reconcileLinks, h1, h2]
  rfl

/-- The per-association delta the spec ascribes to the update endpoints:
the resulting linked set equals the target, rows of other owners are
untouched, ids only in the old set are removed, ids only in the target
are (fresh) additions, and ids in both keep their join row. -/
def ReconcileDelta (mk : Nat → Nat × Nat) (existing target : List Nat)
    (tblOld tblNew : List (Nat × Nat)) : Prop :=
  (∀ a, mk a ∈ tblNew ↔ a ∈ target) ∧
  (∀ p : Nat × Nat, (∀ a, p ≠ mk a) → (p ∈ tblNew ↔ p ∈ tblOld)) ∧
  (∀ a, a ∈ existing → a ∉ target → mk a ∈ tblOld ∧ mk a ∉ tblNew) ∧
  (∀ a, a ∈ target → a ∉ existing → mk a ∉ tblOld ∧ mk a ∈ tblNew) ∧
  (∀ a, a ∈ existing → a ∈ target → mk a ∈ tblOld ∧ mk a ∈ tblNew)

theorem reconcileDelta_of_spec {mk : Nat → Nat × Nat} {existing target : List Nat}
    {tblOld tblNew : List (Nat × Nat)}
    (hex : ∀ a, a ∈ existing ↔ mk a ∈ tblOld)
    (hR1 : ∀ a, mk a ∈ tblNew ↔ a ∈ target)
    (hR2 : ∀ p : Nat × Nat, (∀ a, p ≠ mk a) → (p ∈ tblNew ↔ p ∈ tblOld)) :
    ReconcileDelta mk existing target tblOld tblNew := by
  refine ⟨hR1, hR2, ?_, ?_, ?_⟩
  · intro a ha hna
    exact ⟨(hex a).mp ha, fun hmem => hna ((hR1 a).mp hmem)⟩
  · intro a ha hna
    exact ⟨fun hmem => hna ((hex a).mpr hmem), (hR1 a).mpr ha⟩
  · intro a ha hta
    exact ⟨(hex a).mp ha, (hR1 a).mpr hta⟩

theorem find?_map_ite {α : Type} (p : α → Bool) (nr : α) (hp : p nr = true) :
    ∀ l : List α,
      (l.map (fun r => if p r then nr else r)).find? p = (l.find? p).map (fun _ => nr)
  | [] => rfl
  | r :: rest => by
    by_cases h : p r = true
    · simp [List.find?, h, hp]
    · have h' : p r = false := by simpa using h
      simp [List.find?, h', find?_map_ite p nr hp rest]

theorem map_ite_idem {α : Type} (key : α → Bool) (nr : α) (hk : key nr = true)
    (l : List α) :
    (l.map (fun r => if key r then nr else r)).map (fun r => if key r then nr else r)
      = l.map (fun r => if key r then nr else r) := by
  rw [List.map_map]
  apply List.map_congr_left
  intro r _
  by_cases h : key r = true
  · simp [Function.comp, h, hk]
  · have h' : key r = false := by simpa using h
    simp [Function.comp, h']

/-! ### Behaviour of the update endpoints on valid input -/

theorem pairInjRight (o : Nat) : ∀ a b : Nat, (a, o) = (b, o) → a = b := by
  intro a b h
  exact congrArg Prod.fst h

theorem pairInjLeft (o : Nat) : ∀ a b : Nat, (o, a) = (o, b) → a = b := by
  intro a b h
  exact congrArg Prod.snd h

theorem update_book_spec (db : DB) (bid : Nat) (bd : BookCreate) (b : BookRow)
    (hb : findBook db bid = some b)
    (ha : ∀ a ∈ bd.authors, (findAuthor db a).isSome = true)
    (hl : ∀ l ∈ bd.library, (findLibrary db l).isSome = true) :
    ∃ db', update_book db bid bd = Except.ok
        (⟨bid, bd.title, bd.pages, bd.stock, bd.price, bd.release, bd.time⟩,
         authorIdsOfBook db' bid, libraryIdsOfBook db' bid, db') ∧
      db'.book = db.book.map (fun x => if x.id == bid then
        (⟨bid, bd.title, bd.pages, bd.stock, bd.price, bd.release, bd.time⟩ : BookRow) else x) ∧
      db'.author = db.author ∧ db'.library = db.library ∧
      db'.nextBookId = db.nextBookId ∧ db'.nextAuthorId = db.nextAuthorId ∧
      db'.nextLibraryId = db.nextLibraryId ∧
      ReconcileDelta (fun a => (a, bid)) (authorIdsOfBook db bid) bd.authors
        db.books_1 db'.books_1 ∧
      ReconcileDelta (fun l => (bid, l)) (libraryIdsOfBook db bid) bd.library
        db.books db'.books := by
  obtain ⟨outA, hOutA, hR1A, hR2A⟩ :=
    reconcileLinks_spec (fun a => (findAuthor db a).isSome)
      (fun a => ApiError.httpExc 404 (authorNotFoundMsg a))
      (pairInjRight bid) (fun a => mem_authorIdsOfBook) ha
  obtain ⟨outL, hOutL, hR1L, hR2L⟩ :=
    reconcileLinks_spec (fun l => (findLibrary db l).isSome)
      (fun l => ApiError.httpExc 404 (libraryNotFoundMsg l))
      (pairInjLeft bid) (fun l => mem_libraryIdsOfBook) hl
  refine ⟨{ db with
      book := db.book.map (fun x => if x.id == bid then
        (⟨bid, bd.title, bd.pages, bd.stock, bd.price, bd.release, bd.time⟩ : BookRow) else x),
      books_1 := outA, books := outL }, ?_, rfl, rfl, rfl, rfl, rfl, rfl, ?_, ?_⟩
  · rw [update_book, hb, hOutA, hOutL]
  · exact reconcileDelta_of_spec (fun a => mem_authorIdsOfBook) hR1A hR2A
  · exact reconcileDelta_of_spec (fun l => mem_libraryIdsOfBook) hR1L hR2L

theorem update_author_spec (db : DB) (aid : Nat) (ad : AuthorCreate) (a : AuthorRow)
    (haid : findAuthor db aid = some a)
    (hbk : ∀ b ∈ ad.books, (findBook db b).isSome = true) :
    ∃ db', update_author db aid ad = Except.ok
        (⟨aid, ad.name⟩, bookIdsOfAuthor db' aid, db') ∧
      db'.author = db.author.map (fun x => if x.id == aid then
        (⟨aid, ad.name⟩ : AuthorRow) else x) ∧
      db'.book = db.book ∧ db'.library = db.library ∧ db'.books = db.books ∧
      db'.nextBookId = db.nextBookId ∧ db'.nextAuthorId = db.nextAuthorId ∧
      db'.nextLibraryId = db.nextLibraryId ∧
      ReconcileDelta (fun b => (aid, b)) (bookIdsOfAuthor db aid) ad.books
        db.books_1 db'.books_1 := by
  obtain ⟨out, hOut, hR1, hR2⟩ :=
    reconcileLinks_spec (fun b => (findBook db b).isSome)
      (fun b => ApiError.httpExc 404 (bookNotFoundMsg b))
      (pairInjLeft aid) (fun b => mem_bookIdsOfAuthor) hbk
  refine ⟨{ db with
      author := db.author.map (fun x => if x.id == aid then
        (⟨aid, ad.name⟩ : AuthorRow) else x),
      books_1 := out }, ?_, rfl, rfl, rfl, rfl, rfl, rfl, rfl, ?_⟩
  · rw [update_author, haid, hOut]
  · exact reconcileDelta_of_spec (fun b => mem_bookIdsOfAuthor) hR1 hR2

theorem update_library_spec (db : DB) (lid : Nat) (ld : LibraryCreate) (l : LibraryRow)
    (hlid : findLibrary db lid = some l)
    (hbk : ∀ b ∈ ld.books, (findBook db b).isSome = true) :
    ∃ db', update_library db lid ld = Except.ok
        (⟨lid, ld.name⟩, bookIdsOfLibrary db' lid, db') ∧
      db'.library = db.library.map (fun x => if x.id == lid then
        (⟨lid, ld.name⟩ : LibraryRow) else x) ∧
      db'.book = db.book ∧ db'.author = db.author ∧ db'.books_1 = db.books_1 ∧
      db'.nextBookId = db.nextBookId ∧ db'.nextAuthorId = db.nextAuthorId ∧
      db'.nextLibraryId = db.nextLibraryId ∧
      ReconcileDelta (fun b => (b, lid)) (bookIdsOfLibrary db lid) ld.books
        db.books db'.books := by
  obtain ⟨out, hOut, hR1, hR2⟩ :=
    reconcileLinks_spec (fun b => (findBook db b).isSome)
      (fun b => ApiError.httpExc 404 (bookNotFoundMsg b))
      (pairInjRight lid) (fun b => mem_bookIdsOfLibrary) hbk
  refine ⟨{ db with
      library := db.library.map (fun x => if x.id == lid then
        (⟨lid, ld.name⟩ : LibraryRow) else x),
      books := out }, ?_, rfl, rfl, rfl, rfl, rfl, rfl, rfl, ?_⟩
  · rw [update_library, hlid, hOut]
  · exact reconcileDelta_of_spec (fun b => mem_bookIdsOfLibrary) hR1 hR2

/-! ### Claim theorems -/

/-- C1: for every existing Book (resp. Author) and every update payload
whose referenced ids all exist, the update endpoint applies exactly the
minimal relation delta per association: ids linked but not in the target
are removed, target ids not linked are added (the payload ids having been
verified to exist), ids in both keep their join row, and join rows of
other owners are untouched (`ReconcileDelta`). -/
theorem claim_c1_update_minimal_delta :
    (∀ (db : DB) (bid : Nat) (bd : BookCreate) (b : BookRow),
      findBook db bid = some b →
      (∀ a ∈ bd.authors, (findAuthor db a).isSome = true) →
      (∀ l ∈ bd.library, (findLibrary db l).isSome = true) →
      ∃ r A L db', update_book db bid bd = Except.ok (r, A, L, db') ∧
        ReconcileDelta (fun a => (a, bid)) (authorIdsOfBook db bid) bd.authors
          db.books_1 db'.books_1 ∧
        ReconcileDelta (fun l => (bid, l)) (libraryIdsOfBook db bid) bd.library
          db.books db'.books) ∧
    (∀ (db : DB) (aid : Nat) (ad : AuthorCreate) (a : AuthorRow),
      findAuthor db aid = some a →
      (∀ b ∈ ad.books, (findBook db b).isSome = true) →
      ∃ r B db', update_author db aid ad = Except.ok (r, B, db') ∧
        ReconcileDelta (fun b => (aid, b)) (bookIdsOfAuthor db aid) ad.books
          db.books_1 db'.books_1) := by
  constructor
  · intro db bid bd b hb ha hl
    obtain ⟨db', heq, _, _, _, _, _, _, hDA, hDL⟩ := update_book_spec db bid bd b hb ha hl
    exact ⟨_, _, _, db', heq, hDA, hDL⟩
  · intro db aid ad a haid hbk
    obtain ⟨db', heq, _, _, _, _, _, _, _, hD⟩ := update_author_spec db aid ad a haid hbk
    exact ⟨_, _, db', heq, hD⟩

def c1db : DB :=
  { book := [⟨1, "b", 11, 0, 0, 0, 0⟩],
    author := [⟨1, "A"⟩, ⟨2, "B"⟩, ⟨3, "C"⟩],
    library := [],
    books_1 := [(1, 1), (2, 1)],
    books := [],
    nextBookId := 2, nextAuthorId := 4, nextLibraryId := 1 }

def c1bd : BookCreate :=
  { pages := 12, time := 0, stock := 0, price := 0, release := 0, title := "b",
    authors := [2, 3], library := [] }

/-- Witness for C1: book 1 is linked to authors {1, 2} and the update
payload requests {2, 3}; the hypotheses hold and the delta applies. -/
theorem claim_c1_witness :
    findBook c1db 1 = some ⟨1, "b", 11, 0, 0, 0, 0⟩ ∧
    (∀ a ∈ c1bd.authors, (findAuthor c1db a).isSome = true) ∧
    (∀ l ∈ c1bd.library, (findLibrary c1db l).isSome = true) ∧
    (∃ r A L db', update_book c1db 1 c1bd = Except.ok (r, A, L, db') ∧
      ReconcileDelta (fun a => (a, 1)) (authorIdsOfBook c1db 1) c1bd.authors
        c1db.books_1 db'.books_1 ∧
      ReconcileDelta (fun l => (1, l)) (libraryIdsOfBook c1db 1) c1bd.library
        c1db.books db'.books) :=
  ⟨rfl, by decide, by decide,
    claim_c1_update_minimal_delta.1 c1db 1 c1bd ⟨1, "b", 11, 0, 0, 0, 0⟩ rfl
      (by decide) (by decide)⟩

/-- C2: the update/reconcile operation is idempotent: for every existing
Book, Author or Library and every target id set whose ids all exist,
running the update twice with the same payload yields the same response
both times and the second call leaves the database exactly as the first
left it (so it performs no link insertion or deletion, creates no
duplicate join row, and raises no error). -/
theorem claim_c2_update_idempotent :
    (∀ (db : DB) (bid : Nat) (bd : BookCreate) (b : BookRow),
      findBook db bid = some b →
      (∀ a ∈ bd.authors, (findAuthor db a).isSome = true) →
      (∀ l ∈ bd.library, (findLibrary db l).isSome = true) →
      ∃ r A L db1, update_book db bid bd = Except.ok (r, A, L, db1) ∧
        update_book db1 bid bd = Except.ok (r, A, L, db1)) ∧
    (∀ (db : DB) (aid : Nat) (ad : AuthorCreate) (a : AuthorRow),
      findAuthor db aid = some a →
      (∀ b ∈ ad.books, (findBook db b).isSome = true) →
      ∃ r B db1, update_author db aid ad = Except.ok (r, B, db1) ∧
        update_author db1 aid ad = Except.ok (r, B, db1)) ∧
    (∀ (db : DB) (lid : Nat) (ld : LibraryCreate) (l : LibraryRow),
      findLibrary db lid = some l →
      (∀ b ∈ ld.books, (findBook db b).isSome = true) →
      ∃ r B db1, update_library db lid ld = Except.ok (r, B, db1) ∧
        update_library db1 lid ld = Except.ok (r, B, db1)) := by
  refine ⟨?_, ?_, ?_⟩
  · intro db bid bd b hb ha hl
    obtain ⟨db1, heq, hbook, _, _, _, _, _, hDA, hDL⟩ := update_book_spec db bid bd b hb ha hl
    refine ⟨_, _, _, db1, heq, ?_⟩
    have hfind1 : findBook db1 bid =
        some ⟨bid, bd.title, bd.pages, bd.stock, bd.price, bd.release, bd.time⟩ := by
      show db1.book.find? (fun r => r.id == bid) = _
      rw [hbook, find?_map_ite (fun r => r.id == bid)
          (⟨bid, bd.title, bd.pages, bd.stock, bd.price, bd.release, bd.time⟩ : BookRow)
          (by simp) db.book,
        show db.book.find? (fun r => r.id == bid) = some b from hb]
      rfl
    have hbmap : db1.book.map (fun r => if r.id == bid then
        (⟨bid, bd.title, bd.pages, bd.stock, bd.price, bd.release, bd.time⟩ : BookRow) else r)
        = db1.book := by
      rw [hbook]
      exact map_ite_idem (fun r => r.id == bid)
        (⟨bid, bd.title, bd.pages, bd.stock, bd.price, bd.release, bd.time⟩ : BookRow)
        (by simp) db.book
    rw [update_book, hfind1,
      reconcileLinks_self (fun a => mem_authorIdsOfBook) hDA.1,
      reconcileLinks_self (fun l => mem_libraryIdsOfBook) hDL.1]
    simp only [hbmap]
  · intro db aid ad a haid hbk
    obtain ⟨db1, heq, hauth, _, _, _, _, _, _, hD⟩ := update_author_spec db aid ad a haid hbk
    refine ⟨_, _, db1, heq, ?_⟩
    have hfind1 : findAuthor db1 aid = some ⟨aid, ad.name⟩ := by
      show db1.author.find? (fun r => r.id == aid) = _
      rw [hauth, find?_map_ite (fun r => r.id == aid) (⟨aid, ad.name⟩ : AuthorRow)
          (by simp) db.author,
        show db.author.find? (fun r => r.id == aid) = some a from haid]
      rfl
    have hamap : db1.author.map (fun r => if r.id == aid then
        (⟨aid, ad.name⟩ : AuthorRow) else r) = db1.author := by
      rw [hauth]
      exact map_ite_idem (fun r => r.id == aid) (⟨aid, ad.name⟩ : AuthorRow)
        (by simp) db.author
    rw [update_author, hfind1,
      reconcileLinks_self (fun b => mem_bookIdsOfAuthor) hD.1]
    simp only [hamap]
  · intro db lid ld l hlid hbk
    obtain ⟨db1, heq, hlib, _, _, _, _, _, _, hD⟩ := update_library_spec db lid ld l hlid hbk
    refine ⟨_, _, db1, heq, ?_⟩
    have hfind1 : findLibrary db1 lid = some ⟨lid, ld.name⟩ := by
      show db1.library.find? (fun r => r.id == lid) = _
      rw [hlib, find?_map_ite (fun r => r.id == lid) (⟨lid, ld.name⟩ : LibraryRow)
          (by simp) db.library,
        show db.library.find? (fun r => r.id == lid) = some l from hlid]
      rfl
    have hlmap : db1.library.map (fun r => if r.id == lid then
        (⟨lid, ld.name⟩ : LibraryRow) else r) = db1.library := by
      rw [hlib]
      exact map_ite_idem (fun r => r.id == lid) (⟨lid, ld.name⟩ : LibraryRow)
        (by simp) db.library
    rw [update_library, hfind1,
      reconcileLinks_self (fun b => mem_bookIdsOfLibrary) hD.1]
    simp only [hlmap]

def c2db : DB :=
  { book := [⟨1, "b", 11, 0, 0, 0, 0⟩],
    author := [⟨1, "A"⟩, ⟨2, "B"⟩],
    library := [],
    books_1 := [(1, 1)],
    books := [],
    nextBookId := 2, nextAuthorId := 3, nextLibraryId := 1 }

def c2bd : BookCreate :=
  { pages := 12, time := 0, stock := 0, price := 0, release := 0, title := "b2",
    authors := [2], library := [] }

/-- Witness for C2: updating book 1 twice with the same target {2}. -/
theorem claim_c2_witness :
    findBook c2db 1 = some ⟨1, "b", 11, 0, 0, 0, 0⟩ ∧
    (∀ a ∈ c2bd.authors, (findAuthor c2db a).isSome = true) ∧
    (∃ r A L db1, update_book c2db 1 c2bd = Except.ok (r, A, L, db1) ∧
      update_book db1 1 c2bd = Except.ok (r, A, L, db1)) :=
  ⟨rfl, by decide,
    claim_c2_update_idempotent.1 c2db 1 c2bd ⟨1, "b", 11, 0, 0, 0, 0⟩ rfl
      (by decide) (by decide)⟩

def c3db : DB :=
  { book := [⟨1, "b", 11, 0, 0, 0, 0⟩],
    author := [⟨1, "A"⟩],
    library := [],
    books_1 := [(1, 1)],
    books := [],
    nextBookId := 2, nextAuthorId := 2, nextLibraryId := 1 }

/-- Counterexample to C3: with book 1 and author 1 already linked,
`add_authors_to_book` fails — but it raises `HTTPException(400,
"Relationship already exists")`, whose response status is 400, not the
409 Conflict the claim (and the spec's error taxonomy) prescribes. -/
theorem claim_c3_counterexample :
    add_authors_to_book c3db 1 1 =
      Except.error (ApiError.httpExc 400 "Relationship already exists", c3db) ∧
    (ApiError.httpExc 400 "Relationship already exists").responseStatus ≠ 409 := by
  constructor
  · rfl
  · decide

/-- C3 (amended): for every pair whose join row already exists, the
single-link add endpoint fails with an `HTTPException` of status 400 and
detail "Relationship already exists" (not 409) and inserts nothing; and
`add_link` followed by `add_link` with the same pair fails that way on
the second call. -/
theorem claim_c3_add_link_duplicate :
    ∀ (db : DB) (bid aid : Nat),
      (findBook db bid).isSome = true →
      (findAuthor db aid).isSome = true →
      ((aid, bid) ∈ db.books_1 →
        add_authors_to_book db bid aid =
          Except.error (ApiError.httpExc 400 "Relationship already exists", db)) ∧
      ((aid, bid) ∉ db.books_1 →
        ∃ db', add_authors_to_book db bid aid =
            Except.ok ("Author added to authors successfully", db') ∧
          db'.books_1 = db.books_1 ++ [(aid, bid)] ∧
          add_authors_to_book db' bid aid =
            Except.error (ApiError.httpExc 400 "Relationship already exists", db')) := by
  intro db bid aid hb ha
  obtain ⟨rb, hrb⟩ := Option.isSome_iff_exists.mp hb
  obtain ⟨ra, hra⟩ := Option.isSome_iff_exists.mp ha
  constructor
  · intro hmem
    rw [add_authors_to_book, hrb, hra, if_pos hmem]
  · intro hmem
    refine ⟨{ db with books_1 := db.books_1 ++ [(aid, bid)] }, ?_, rfl, ?_⟩
    · rw [add_authors_to_book, hrb, hra, if_neg hmem, insertPair, if_neg hmem]
    · have hmem' : (aid, bid) ∈ db.books_1 ++ [(aid, bid)] := by simp
      rw [add_authors_to_book,
        show findBook { db with books_1 := db.books_1 ++ [(aid, bid)] } bid = some rb from hrb,
        show findAuthor { db with books_1 := db.books_1 ++ [(aid, bid)] } aid = some ra from hra,
        if_pos hmem']

/-- Witness for the amended C3 at book 1 / author 1: the first add
succeeds, the second fails with the 400 error. -/
theorem claim_c3_witness :
    (findBook c3db 1).isSome = true ∧ (findAuthor c3db 1).isSome = true ∧
    (1, 1) ∈ c3db.books_1 ∧
    add_authors_to_book c3db 1 1 =
      Except.error (ApiError.httpExc 400 "Relationship already exists", c3db) :=
  ⟨by decide, by decide, by decide,
    (claim_c3_add_link_duplicate c3db 1 1 (by decide) (by decide)).1 (by decide)⟩

theorem mem_validateItemsFrom (l : List BookCreate) :
    ∀ (k i : Nat) (m : String),
      (i, m) ∈ validateItemsFrom k l ↔
        ∃ j it, l.get? j = some it ∧ i = k + j ∧
          validate_pages_1 it.pages = Except.error m := by
  induction l with
  | nil =>
    intro k i m
    simp [validateItemsFrom]
  | cons it rest ih =>
    intro k i m
    rw [validateItemsFrom]
    cases hv : validate_pages_1 it.pages with
    | error m0 =>
      simp only [List.mem_cons, ih, Prod.mk.injEq]
      constructor
      · rintro (⟨hik, hmm⟩ | ⟨j, it', hj, hi, hm⟩)
        · subst hik; subst hmm
          exact ⟨0, it, rfl, by omega, hv⟩
        · exact ⟨j + 1, it', hj, by omega, hm⟩
      · rintro ⟨j, it', hj, hi, hm⟩
        cases j with
        | zero =>
          left
          have hit : it = it' := by simpa using hj
          subst hit
          rw [hv] at hm
          injection hm with hmm
          exact ⟨by omega, hmm.symm⟩
        | succ j' =>
          right
          exact ⟨j', it', by simpa using hj, by omega, hm⟩
    | ok v =>
      simp only [ih]
      constructor
      · rintro ⟨j, it', hj, hi, hm⟩
        exact ⟨j + 1, it', hj, by omega, hm⟩
      · rintro ⟨j, it', hj, hi, hm⟩
        cases j with
        | zero =>
          exfalso
          have hit : it = it' := by simpa using hj
          subst hit
          rw [hv] at hm
          exact Except.noConfusion hm
        | succ j' =>
          exact ⟨j', it', by simpa using hj, by omega, hm⟩

/-- C4: bulk create is all-or-nothing.  If any submitted item fails
validation, `bulk_create_book` persists nothing (the state in the error
is the unchanged input state) and the per-item error list of the failure
response contains exactly the failing items, each at its index in the
submitted list. -/
theorem claim_c4_bulk_create_atomic :
    ∀ (db : DB) (items : List BookCreate),
      validateItems items ≠ [] →
      bulk_create_book db items =
        Except.error (ApiError.bulkExc 400 "Bulk creation failed" (validateItems items), db) ∧
      (∀ (i : Nat) (m : String), (i, m) ∈ validateItems items ↔
        ∃ it, items.get? i = some it ∧ validate_pages_1 it.pages = Except.error m) := by
  intro db items hne
  have hE : (validateItems items).isEmpty = false := by
    cases hE : (validateItems items).isEmpty
    · rfl
    · exact absurd (List.isEmpty_iff.mp hE) hne
  constructor
  · simp [bulk_create_book, hE]
  · intro i m
    rw [validateItems, mem_validateItemsFrom items 0 i m]
    constructor
    · rintro ⟨j, it, hj, hi, hm⟩
      have hij : j = i := by omega
      subst hij
      exact ⟨it, hj, hm⟩
    · rintro ⟨it, hi, hm⟩
      exact ⟨i, it, hi, by omega, hm⟩

def c4db : DB :=
  { book := [], author := [], library := [], books_1 := [], books := [],
    nextBookId := 1, nextAuthorId := 1, nextLibraryId := 1 }

def c4items : List BookCreate :=
  [{ pages := 12, time := 0, stock := 0, price := 0, release := 0, title := "ok",
     authors := [], library := [] },
   { pages := 5, time := 0, stock := 0, price := 0, release := 0, title := "bad",
     authors := [], library := [] }]

/-- Witness for C4: a batch of two items where the second has pages=5
persists nothing and reports exactly one error, at index 1. -/
theorem claim_c4_witness :
    validateItems c4items = [(1, "pages must be > 10")] ∧
    (bulk_create_book c4db c4items =
        Except.error (ApiError.bulkExc 400 "Bulk creation failed" (validateItems c4items), c4db) ∧
      (∀ (i : Nat) (m : String), (i, m) ∈ validateItems c4items ↔
        ∃ it, c4items.get? i = some it ∧ validate_pages_1 it.pages = Except.error m)) :=
  ⟨by decide, claim_c4_bulk_create_atomic c4db c4items (by decide)⟩

def c5db : DB :=
  { book := [⟨1, "b", 11, 5, 0, 0, 0⟩], author := [], library := [],
    books_1 := [], books := [],
    nextBookId := 2, nextAuthorId := 1, nextLibraryId := 1 }

/-- Counterexample to C5: book 1 has stock 5 and `decrease_stock` is
called with qty 10.  The call fails and the stock is untouched, but the
error is `HTTPException(500, "Method execution failed: …")` — the
endpoint's `except Exception` clause re-raises the domain `ValueError`
as a 500 server error, not as a 4xx client error response. -/
theorem claim_c5_counterexample :
    execute_book_decrease_stock c5db 1 10 =
      Except.error (ApiError.httpExc 500
        "Method execution failed: Cannot decrease stock by 10. Only 5 items available.",
        c5db) ∧
    ¬ ((ApiError.httpExc 500
        "Method execution failed: Cannot decrease stock by 10. Only 5 items available.").responseStatus
        < 500) := by
  constructor
  · rfl
  · decide

/-- C5 (amended): for every Book, `decrease_stock` with qty ≤ 0 or qty
greater than the current stock fails — with an HTTP 500
"Method execution failed: …" error (the endpoint converts the domain
`ValueError` into a 500, not a client error) — and leaves the stock
unchanged; with qty equal to the current (positive) stock it succeeds
and leaves the stock at 0. -/
theorem claim_c5_decrease_stock :
    ∀ (db : DB) (bid : Nat) (qty : Int) (b : BookRow),
      findBook db bid = some b →
      ((qty ≤ 0 ∨ qty > b.stock) →
        ∃ d, execute_book_decrease_stock db bid qty =
          Except.error (ApiError.httpExc 500 d, db)) ∧
      (0 < qty → qty = b.stock →
        ∃ db', execute_book_decrease_stock db bid qty = Except.ok db' ∧
          findBook db' bid = some { b with stock := 0 }) := by
  intro db bid qty b hb
  constructor
  · intro h
    by_cases h0 : qty ≤ 0
    · exact ⟨_, by simp only [execute_book_decrease_stock, hb]; rw [if_pos h0]⟩
    · have hgt : qty > b.stock := by
        rcases h with h | h
        · exact absurd h h0
        · exact h
      exact ⟨_, by simp only [execute_book_decrease_stock, hb]; rw [if_neg h0, if_pos hgt]⟩
  · intro h0 heq
    have hbid : (b.id == bid) = true := by
      have := List.find?_some hb
      simpa using this
    have hstock : b.stock - qty = 0 := by omega
    refine ⟨{ db with book := db.book.map (fun r => if r.id == bid then
        ({ b with stock := b.stock - qty } : BookRow) else r) }, ?_, ?_⟩
    · simp only [execute_book_decrease_stock, hb]
      rw [if_neg (show ¬ qty ≤ 0 by omega), if_neg (show ¬ qty > b.stock by omega)]
    · show (List.map (fun r => if r.id == bid then ({ b with stock := b.stock - qty } : BookRow)
          else r) db.book).find? (fun r => r.id == bid) = _
      rw [find?_map_ite (fun r => r.id == bid) ({ b with stock := b.stock - qty } : BookRow)
          hbid db.book,
        show db.book.find? (fun r => r.id == bid) = some b from hb, hstock]
      rfl

/-- Witness for the amended C5 at book 1 with stock 5: qty 10 fails with
a 500 error leaving the state unchanged, qty 5 succeeds and leaves stock
0. -/
theorem claim_c5_witness :
    findBook c5db 1 = some ⟨1, "b", 11, 5, 0, 0, 0⟩ ∧
    (∃ d, execute_book_decrease_stock c5db 1 10 =
      Except.error (ApiError.httpExc 500 d, c5db)) ∧
    (∃ db', execute_book_decrease_stock c5db 1 5 = Except.ok db' ∧
      findBook db' 1 = some ⟨1, "b", 11, 0, 0, 0, 0⟩) :=
  ⟨rfl,
    (claim_c5_decrease_stock c5db 1 10 ⟨1, "b", 11, 5, 0, 0, 0⟩ rfl).1 (by decide),
    (claim_c5_decrease_stock c5db 1 5 ⟨1, "b", 11, 5, 0, 0, 0⟩ rfl).2 (by decide) (by decide)⟩

/-- C6: creating an Author with an empty books list fails with
`HTTPException(400, "At least 1 Book(s) required")` and no Author row is
persisted (the state is unchanged); a books list containing an id with
no existing Book fails with a 404 naming a missing id, also before any
write. -/
theorem claim_c6_create_author_requires_books :
    ∀ (db : DB) (ad : AuthorCreate),
      (ad.books = [] →
        create_author db ad =
          Except.error (ApiError.httpExc 400 "At least 1 Book(s) required", db)) ∧
      ((∃ b ∈ ad.books, findBook db b = none) →
        ∃ bid, bid ∈ ad.books ∧ findBook db bid = none ∧
          create_author db ad =
            Except.error (ApiError.httpExc 404 (bookNotFoundMsg bid), db)) := by
  intro db ad
  constructor
  · intro h
    simp [create_author, h]
  · rintro ⟨b0, hb0, hno⟩
    have hs : (ad.books.find? (fun b => !(findBook db b).isSome)).isSome := by
      rw [List.find?_isSome]
      exact ⟨b0, hb0, by simp [hno]⟩
    obtain ⟨bid, hbid⟩ := Option.isSome_iff_exists.mp hs
    have hmem := List.mem_of_find?_eq_some hbid
    have hpred := List.find?_some hbid
    have hnone : findBook db bid = none := by
      cases hfb : findBook db bid with
      | none => rfl
      | some r => rw [hfb] at hpred; simp at hpred
    refine ⟨bid, hmem, hnone, ?_⟩
    have hne : ad.books.isEmpty = false := by
      cases he : ad.books with
      | nil => rw [he] at hmem; simp at hmem
      | cons x xs => rfl
    rw [create_author, if_neg (by simp [hne]), hbid]

def c6db : DB :=
  { book := [⟨1, "b", 11, 0, 0, 0, 0⟩], author := [], library := [],
    books_1 := [], books := [],
    nextBookId := 2, nextAuthorId := 1, nextLibraryId := 1 }

/-- Witness for C6: an empty books list gives the 400, and books = [7]
(book 7 does not exist) gives the 404 naming id 7 — in both cases the
state is unchanged. -/
theorem claim_c6_witness :
    (create_author c6db ⟨"A", []⟩ =
      Except.error (ApiError.httpExc 400 "At least 1 Book(s) required", c6db)) ∧
    (∃ bid, bid ∈ ([7] : List Nat) ∧ findBook c6db bid = none ∧
      create_author c6db ⟨"A", [7]⟩ =
        Except.error (ApiError.httpExc 404 (bookNotFoundMsg bid), c6db)) :=
  ⟨(claim_c6_create_author_requires_books c6db ⟨"A", []⟩).1 rfl,
    (claim_c6_create_author_requires_books c6db ⟨"A", [7]⟩).2 ⟨7, by decide, by decide⟩⟩

def c7db : DB :=
  { book := [⟨1, "b", 11, 0, 0, 0, 0⟩], author := [⟨1, "A"⟩], library := [],
    books_1 := [(1, 1)], books := [],
    nextBookId := 2, nextAuthorId := 2, nextLibraryId := 1 }

def c7dbAfter : DB :=
  { book := [], author := [⟨1, "A"⟩], library := [],
    books_1 := [], books := [],
    nextBookId := 2, nextAuthorId := 2, nextLibraryId := 1 }

/-- Counterexample to C7: author 1 is linked to book 1 by the join row
`(1, 1)`; deleting book 1 succeeds, and afterwards that join row is NOT
still present — SQLAlchemy's handling of `relationship(secondary=…)`
deletes the association rows of a deleted parent. -/
theorem claim_c7_counterexample :
    (1, 1) ∈ c7db.books_1 ∧
    delete_book c7db 1 = Except.ok (⟨1, "b", 11, 0, 0, 0, 0⟩, c7dbAfter) ∧
    (1, 1) ∉ c7dbAfter.books_1 := by
  refine ⟨by decide, rfl, by decide⟩

/-- C7 (amended): deleting a Book, Author or Library also removes the
join rows that referenced it (the ORM deletes secondary-table rows for a
deleted parent): after a successful single delete no join row references
the deleted id on the deleted entity's side. -/
theorem claim_c7_delete_removes_links :
    ∀ (db : DB) (id : Nat),
      (∀ r db', delete_book db id = Except.ok (r, db') →
        (∀ p ∈ db'.books_1, p.2 ≠ id) ∧ (∀ p ∈ db'.books, p.1 ≠ id)) ∧
      (∀ r db', delete_author db id = Except.ok (r, db') →
        ∀ p ∈ db'.books_1, p.1 ≠ id) ∧
      (∀ r db', delete_library db id = Except.ok (r, db') →
        ∀ p ∈ db'.books, p.2 ≠ id) := by
  intro db id
  refine ⟨?_, ?_, ?_⟩
  · intro r db' h
    cases hf : findBook db id with
    | none =>
      simp only [delete_book, hf] at h
      exact Except.noConfusion h
    | some r0 =>
      simp only [delete_book, hf] at h
      injection h with h'
      obtain rfl := congrArg Prod.snd h'
      constructor
      · intro p hp
        have := (List.mem_filter.mp hp).2
        simpa using this
      · intro p hp
        have := (List.mem_filter.mp hp).2
        simpa using this
  · intro r db' h
    cases hf : findAuthor db id with
    | none =>
      simp only [delete_author, hf] at h
      exact Except.noConfusion h
    | some r0 =>
      simp only [delete_author, hf] at h
      injection h with h'
      obtain rfl := congrArg Prod.snd h'
      intro p hp
      have := (List.mem_filter.mp hp).2
      simpa using this
  · intro r db' h
    cases hf : findLibrary db id with
    | none =>
      simp only [delete_library, hf] at h
      exact Except.noConfusion h
    | some r0 =>
      simp only [delete_library, hf] at h
      injection h with h'
      obtain rfl := congrArg Prod.snd h'
      intro p hp
      have := (List.mem_filter.mp hp).2
      simpa using this

/-- Witness for the amended C7: deleting book 1 from `c7db` leaves no
join row referencing book 1. -/
theorem claim_c7_witness :
    delete_book c7db 1 = Except.ok (⟨1, "b", 11, 0, 0, 0, 0⟩, c7dbAfter) ∧
    ((∀ p ∈ c7dbAfter.books_1, p.2 ≠ 1) ∧ (∀ p ∈ c7dbAfter.books, p.1 ≠ 1)) :=
  ⟨rfl, (claim_c7_delete_removes_links c7db 1).1 ⟨1, "b", 11, 0, 0, 0, 0⟩ c7dbAfter rfl⟩

/-- C8: the pages boundary is exclusive — a payload with pages = 10 is
rejected by the `BookCreate` validator with exactly the message
"pages must be > 10", an otherwise-valid payload with pages = 11 passes
validation, and in general `validate_pages_1` accepts exactly the values
greater than 10. -/
theorem claim_c8_pages_boundary :
    ∀ bd : BookCreate,
      (bd.pages = 10 → validateBookCreate bd = Except.error "pages must be > 10") ∧
      (bd.pages = 11 → validateBookCreate bd = Except.ok bd) ∧
      (validate_pages_1 bd.pages = Except.ok bd.pages ↔ bd.pages > 10) := by
  intro bd
  refine ⟨?_, ?_, ?_, ?_⟩
  · intro h
    simp [validateBookCreate, validate_pages_1, h]
  · intro h
    simp [validateBookCreate, validate_pages_1, h]
  · intro h
    by_cases hgt : bd.pages > 10
    · exact hgt
    · rw [validate_pages_1, if_pos (by simpa using hgt)] at h
      exact Except.noConfusion h
  · intro hgt
    rw [validate_pages_1, if_neg (by simpa using hgt)]

def c8bd10 : BookCreate :=
  { pages := 10, time := 0, stock := 0, price := 0, release := 0, title := "x",
    authors := [], library := [] }

def c8bd11 : BookCreate :=
  { pages := 11, time := 0, stock := 0, price := 0, release := 0, title := "x",
    authors := [], library := [] }

/-- Witness for C8 at pages = 10 (rejected with the exact message) and
pages = 11 (accepted). -/
theorem claim_c8_witness :
    (c8bd10.pages = 10 ∧ validateBookCreate c8bd10 = Except.error "pages must be > 10") ∧
    (c8bd11.pages = 11 ∧ validateBookCreate c8bd11 = Except.ok c8bd11) :=
  ⟨⟨rfl, (claim_c8_pages_boundary c8bd10).1 rfl⟩,
    ⟨rfl, (claim_c8_pages_boundary c8bd11).2.1 rfl⟩⟩

theorem stageAuthorsFrom_wipe (items : List AuthorCreate) :
    ∀ n, stageAuthorsFrom n (items.map (fun it => (⟨it.name, []⟩ : AuthorCreate)))
      = stageAuthorsFrom n items := by
  induction items with
  | nil => intro n; rfl
  | cons it rest ih => intro n; simp [stageAuthorsFrom, ih]

theorem stageAuthorsFrom_length (items : List AuthorCreate) :
    ∀ n, (stageAuthorsFrom n items).length = items.length := by
  induction items with
  | nil => intro n; rfl
  | cons it rest ih => intro n; simp [stageAuthorsFrom, ih]

theorem mem_stageAuthorsFrom_id_ge (items : List AuthorCreate) :
    ∀ n i, i ∈ (stageAuthorsFrom n items).map (fun r => r.id) → n ≤ i := by
  induction items with
  | nil => intro n i h; simp [stageAuthorsFrom] at h
  | cons it rest ih =>
    intro n i h
    simp only [stageAuthorsFrom, List.map_cons, List.mem_cons] at h
    rcases h with h | h
    · omega
    · have := ih (n + 1) i h
      omega

theorem stageLibrariesFrom_length (items : List LibraryCreate) :
    ∀ n, (stageLibrariesFrom n items).length = items.length := by
  induction items with
  | nil => intro n; rfl
  | cons it rest ih => intro n; simp [stageLibrariesFrom, ih]

theorem stageBooksFrom_wipe (items : List BookCreate) :
    ∀ n, stageBooksFrom n (items.map (fun it =>
        (⟨it.pages, it.time, it.stock, it.price, it.release, it.title, [], []⟩ : BookCreate)))
      = stageBooksFrom n items := by
  induction items with
  | nil => intro n; rfl
  | cons it rest ih => intro n; simp [stageBooksFrom, ih]

theorem validateItemsFrom_wipe (items : List BookCreate) :
    ∀ k, validateItemsFrom k (items.map (fun it =>
        (⟨it.pages, it.time, it.stock, it.price, it.release, it.title, [], []⟩ : BookCreate)))
      = validateItemsFrom k items := by
  induction items with
  | nil => intro k; rfl
  | cons it rest ih =>
    intro k
    rw [List.map_cons, validateItemsFrom, validateItemsFrom]
    cases validate_pages_1 it.pages with
    | error m => rw [ih]
    | ok v => rw [ih]

theorem mem_stageBooksFrom_id_ge (items : List BookCreate) :
    ∀ n i, i ∈ (stageBooksFrom n items).map (fun r => r.id) → n ≤ i := by
  induction items with
  | nil => intro n i h; simp [stageBooksFrom] at h
  | cons it rest ih =>
    intro n i h
    simp only [stageBooksFrom, List.map_cons, List.mem_cons] at h
    rcases h with h | h
    · omega
    · have := ih (n + 1) i h
      omega

/-- C9 (implicit): bulk create ignores the relation id lists of its
items.  `bulk_create_author` behaves identically when every `books` list
is wiped, writes no join row, creates one Author per item (so an empty
books list passes — there is no "at least 1 Book" check, unlike
single create); `bulk_create_book` behaves identically when the
`authors`/`library` lists are wiped and on success writes no join row;
`bulk_create_library` likewise.  Consequently (when existing join rows
only reference already-allocated ids) every freshly created entity has
zero join rows. -/
theorem claim_c9_bulk_create_ignores_relations :
    ∀ (db : DB) (bitems : List BookCreate) (aitems : List AuthorCreate)
      (litems : List LibraryCreate),
      (bulk_create_author db aitems =
        bulk_create_author db (aitems.map (fun it => ⟨it.name, []⟩))) ∧
      ((bulk_create_author db aitems).2.books_1 = db.books_1 ∧
        (bulk_create_author db aitems).2.books = db.books ∧
        (bulk_create_author db aitems).1.length = aitems.length) ∧
      ((∀ p ∈ db.books_1, p.1 < db.nextAuthorId) →
        ∀ i ∈ (bulk_create_author db aitems).1,
          bookIdsOfAuthor (bulk_create_author db aitems).2 i = []) ∧
      (bulk_create_book db bitems =
        bulk_create_book db (bitems.map (fun it =>
          ⟨it.pages, it.time, it.stock, it.price, it.release, it.title, [], []⟩))) ∧
      (∀ ids db', bulk_create_book db bitems = Except.ok (ids, db') →
        db'.books_1 = db.books_1 ∧ db'.books = db.books ∧
        ((∀ p ∈ db.books_1, p.2 < db.nextBookId) →
          (∀ p ∈ db.books, p.1 < db.nextBookId) →
          ∀ i ∈ ids, authorIdsOfBook db' i = [] ∧ libraryIdsOfBook db' i = [])) ∧
      ((bulk_create_library db litems).2.books = db.books ∧
        (bulk_create_library db litems).2.books_1 = db.books_1 ∧
        (bulk_create_library db litems).1.length = litems.length) := by
  intro db bitems aitems litems
  refine ⟨?_, ⟨rfl, rfl, ?_⟩, ?_, ?_, ?_, rfl, rfl, ?_⟩
  · simp [bulk_create_author, stageAuthorsFrom_wipe]
  · simp [bulk_create_author, stageAuthorsFrom_length]
  · intro hfresh i hi
    have hge : db.nextAuthorId ≤ i := mem_stageAuthorsFrom_id_ge aitems db.nextAuthorId i hi
    have hnil : db.books_1.filter (fun p => p.1 == i) = [] := by
      apply List.filter_eq_nil_iff.mpr
      intro p hp
      have := hfresh p hp
      simp only [beq_iff_eq]
      omega
    show (db.books_1.filter (fun p => p.1 == i)).map (fun p => p.2) = []
    rw [hnil]
    rfl
  · rw [bulk_create_book, bulk_create_book, validateItems, validateItems,
      validateItemsFrom_wipe, stageBooksFrom_wipe, List.length_map]
  · intro ids db' h
    rw [bulk_create_book] at h
    cases hE : (validateItems bitems).isEmpty with
    | false =>
      rw [hE] at h
      simp at h
    | true =>
      rw [hE] at h
      simp only [if_true] at h
      injection h with h'
      have hids : (stageBooksFrom db.nextBookId bitems).map (fun r => r.id) = ids :=
        congrArg Prod.fst h'
      obtain rfl := congrArg Prod.snd h'
      refine ⟨rfl, rfl, ?_⟩
      intro hf1 hf2 i hi
      rw [← hids] at hi
      have hge : db.nextBookId ≤ i := mem_stageBooksFrom_id_ge bitems db.nextBookId i hi
      constructor
      · have hnil : db.books_1.filter (fun p => p.2 == i) = [] := by
          apply List.filter_eq_nil_iff.mpr
          intro p hp
          have := hf1 p hp
          simp only [beq_iff_eq]
          omega
        show (db.books_1.filter (fun p => p.2 == i)).map (fun p => p.1) = []
        rw [hnil]
        rfl
      · have hnil : db.books.filter (fun p => p.1 == i) = [] := by
          apply List.filter_eq_nil_iff.mpr
          intro p hp
          have := hf2 p hp
          simp only [beq_iff_eq]
          omega
        show (db.books.filter (fun p => p.1 == i)).map (fun p => p.2) = []
        rw [hnil]
        rfl
  · simp [bulk_create_library, stageLibrariesFrom_length]

def c9db : DB :=
  { book := [⟨1, "b", 11, 0, 0, 0, 0⟩], author := [⟨1, "A"⟩], library := [],
    books_1 := [(1, 1)], books := [],
    nextBookId := 2, nextAuthorId := 2, nextLibraryId := 1 }

def c9aitems : List AuthorCreate := [⟨"X", []⟩, ⟨"Y", [1]⟩]

def c9bitems : List BookCreate :=
  [{ pages := 12, time := 0, stock := 0, price := 0, release := 0, title := "n",
     authors := [1], library := [5] }]

def c9dbAfter : DB :=
  { book := [⟨1, "b", 11, 0, 0, 0, 0⟩, ⟨2, "n", 12, 0, 0, 0, 0⟩],
    author := [⟨1, "A"⟩], library := [],
    books_1 := [(1, 1)], books := [],
    nextBookId := 3, nextAuthorId := 2, nextLibraryId := 1 }

/-- Witness for C9: bulk-creating authors (one with an empty books list,
one naming book 1) links nothing, and bulk-creating a book that names
author 1 and library 5 succeeds and writes no join row. -/
theorem claim_c9_witness :
    (∀ p ∈ c9db.books_1, p.1 < c9db.nextAuthorId) ∧
    (∀ i ∈ (bulk_create_author c9db c9aitems).1,
      bookIdsOfAuthor (bulk_create_author c9db c9aitems).2 i = []) ∧
    (bulk_create_book c9db c9bitems = Except.ok ([2], c9dbAfter) ∧
      c9dbAfter.books_1 = c9db.books_1 ∧ c9dbAfter.books = c9db.books ∧
      (∀ i ∈ ([2] : List Nat),
        authorIdsOfBook c9dbAfter i = [] ∧ libraryIdsOfBook c9dbAfter i = [])) := by
  have h := claim_c9_bulk_create_ignores_relations c9db c9bitems c9aitems []
  have hE := h.2.2.2.2.1 [2] c9dbAfter rfl
  exact ⟨by decide, h.2.2.1 (by decide), rfl, hE.1, hE.2.1,
    hE.2.2 (by decide) (by decide)⟩

/-- C10 (implicit): single create of a Book is not atomic across the
entity row and its links.  For any state with an existing author `a` and
an authors list `[a, a]` (all referenced entities valid), the second
association insert violates the join table's composite primary key: the
request fails with an `IntegrityError`, yet the committed state already
contains the new Book row and the first `(a, book)` join row — a
persisted Book with only part of the requested links (the library links
were never attempted). -/
theorem claim_c10_create_book_partial_commit :
    ∀ (db : DB) (a : Nat) (bd : BookCreate),
      bd.authors = [a, a] →
      (findAuthor db a).isSome = true →
      (a, db.nextBookId) ∉ db.books_1 →
      (∀ l ∈ bd.library, (findLibrary db l).isSome = true) →
      ∃ e db', create_book db bd = Except.error (ApiError.integrityErr e, db') ∧
        (⟨db.nextBookId, bd.title, bd.pages, bd.stock, bd.price, bd.release, bd.time⟩ : BookRow)
          ∈ db'.book ∧
        db'.books_1 = db.books_1 ++ [(a, db.nextBookId)] ∧
        db'.books = db.books := by
  intro db a bd hauth hsome hfresh hlib
  have hfindA : List.find? (fun x => !(findAuthor db x).isSome) [a, a] = none := by
    rw [List.find?_eq_none]
    intro x hx
    have hxa : x = a := by
      rcases List.mem_cons.mp hx with h | h
      · exact h
      · simpa using h
    subst hxa
    simp [hsome]
  have hfindL : bd.library.find? (fun l => !(findLibrary db l).isSome) = none := by
    rw [List.find?_eq_none]
    intro l hl
    simp [hlib l hl]
  have hins : insertPairsCommitting (fun x => (x, db.nextBookId)) [a, a] db.books_1
      = (db.books_1 ++ [(a, db.nextBookId)], some "UNIQUE constraint failed") := by
    rw [insertPairsCommitting, insertPair, if_neg hfresh]
    show insertPairsCommitting (fun x => (x, db.nextBookId)) [a]
        (db.books_1 ++ [(a, db.nextBookId)]) = _
    rw [insertPairsCommitting, insertPair, if_pos (by simp)]
  refine ⟨"UNIQUE constraint failed",
    { db with
      book := db.book ++
        [⟨db.nextBookId, bd.title, bd.pages, bd.stock, bd.price, bd.release, bd.time⟩],
      books_1 := db.books_1 ++ [(a, db.nextBookId)],
      nextBookId := db.nextBookId + 1 }, ?_, by simp, rfl, rfl⟩
  simp only [create_book, hauth, hfindA, hfindL]
  rw [hins]

def c10db : DB :=
  { book := [], author := [⟨1, "A"⟩], library := [],
    books_1 := [], books := [],
    nextBookId := 1, nextAuthorId := 2, nextLibraryId := 1 }

def c10bd : BookCreate :=
  { pages := 12, time := 0, stock := 0, price := 0, release := 0, title := "n",
    authors := [1, 1], library := [] }

/-- Witness for C10: creating a book with authors `[1, 1]` fails with an
IntegrityError but leaves the book row and the single `(1, 1)` join row
committed. -/
theorem claim_c10_witness :
    c10bd.authors = [1, 1] ∧ (findAuthor c10db 1).isSome = true ∧
    (∃ e db', create_book c10db c10bd = Except.error (ApiError.integrityErr e, db') ∧
      (⟨c10db.nextBookId, c10bd.title, c10bd.pages, c10bd.stock, c10bd.price,
        c10bd.release, c10bd.time⟩ : BookRow) ∈ db'.book ∧
      db'.books_1 = c10db.books_1 ++ [(1, c10db.nextBookId)] ∧
      db'.books = c10db.books) :=
  ⟨rfl, by decide,
    claim_c10_create_book_partial_commit c10db 1 c10bd rfl (by decide) (by decide) (by decide)⟩

end SampleModel
